import Mathlib

/-!
# HPPDynamicUniformBuffers

A shallow embedding of `samples/api/hpp_dynamic_uniform_buffers/hpp_dynamic_uniform_buffers.h`
and the properties of its data model: the `Vertex` record and its setters, the per-object
arrays of the sample class, the `UboVS` uniform block, and the stride and offsets of the
dynamic uniform buffer.

The component type of the vectors (`float` in the source) is a type parameter `α`: the code
only copies components, it never computes with them.
-/

namespace HPPDynamicUniformBuffers

/-! ## Constants and external types -/

/-- The macro `OBJECT_INSTANCES` (header line 33). -/
def OBJECT_INSTANCES : Nat := 15

/-- The `glm::vec3` of three components `x`, `y`, `z`. -/
structure vec3 (α : Type) where
  x : α
  y : α
  z : α
deriving DecidableEq, Repr

/-- The colour name of the first component: in glm `r` is the same storage as `x`. -/
def vec3.r {α : Type} (v : vec3 α) : α := v.x

/-- The colour name of the second component: in glm `g` is the same storage as `y`. -/
def vec3.g {α : Type} (v : vec3 α) : α := v.y

/-- The colour name of the third component: in glm `b` is the same storage as `z`. -/
def vec3.b {α : Type} (v : vec3 α) : α := v.z

/-- A C array `float a[3]`: three cells, indexed 0, 1, 2. -/
structure float3 (α : Type) where
  e0 : α
  e1 : α
  e2 : α
deriving DecidableEq, Repr

/-- The assignment `a[i] = value` on a three-cell array. -/
def float3.set {α : Type} (a : float3 α) (i : Fin 3) (value : α) : float3 α :=
  match i with
  | 0 => { a with e0 := value }
  | 1 => { a with e1 := value }
  | 2 => { a with e2 := value }

/-! ## Vertex (header lines 64-107) -/

/-- The `struct Vertex`: `float pos[3]; float color[3]; float normal[3];`. -/
structure Vertex (α : Type) where
  pos : float3 α
  color : float3 α
  normal : float3 α
deriving DecidableEq, Repr

/-- The method `set_position` (lines 79-84): three writes into `pos`. -/
def Vertex.set_position {α : Type} (self : Vertex α) (position : vec3 α) : Vertex α :=
  let s0 : Vertex α := { self with pos := self.pos.set 0 position.x }
  let s1 : Vertex α := { s0 with pos := s0.pos.set 1 position.y }
  { s1 with pos := s1.pos.set 2 position.z }

/-- The method `set_color` (lines 86-91): three writes into `this->color`. -/
def Vertex.set_color {α : Type} (self : Vertex α) (color : vec3 α) : Vertex α :=
  let s0 : Vertex α := { self with color := self.color.set 0 color.r }
  let s1 : Vertex α := { s0 with color := s0.color.set 1 color.g }
  { s1 with color := s1.color.set 2 color.b }

/-- The method `set_normal` (lines 92-97): three writes into `this->normal`. -/
def Vertex.set_normal {α : Type} (self : Vertex α) (normal : vec3 α) : Vertex α :=
  let s0 : Vertex α := { self with normal := self.normal.set 0 normal.x }
  let s1 : Vertex α := { s0 with normal := s0.normal.set 1 normal.y }
  { s1 with normal := s1.normal.set 2 normal.z }

/-- The three-argument constructor (lines 71-77). The members have no initialisers, so the
body starts from whatever the storage holds, here `raw`, and calls the three setters in the
order of the source. -/
def Vertex.ctor {α : Type} (raw : Vertex α) (position color normal : vec3 α) : Vertex α :=
  ((raw.set_position position).set_color color).set_normal normal

/-- The `operator=(const glm::vec3 &new_color)` (lines 101-105): it calls `set_color` and
returns `*this`. -/
def Vertex.assign {α : Type} (self : Vertex α) (new_color : vec3 α) : Vertex α :=
  self.set_color new_color

/-! ## Per-object state of the sample class (header lines 135-148) -/

/-- A C array `T a[n]`: exactly `n` cells. -/
def CArray (τ : Type) (n : Nat) : Type := { cells : Array τ // cells.size = n }

/-- The read `a[i]` for any index: `none` outside the array. -/
def CArray.get? {τ : Type} {n : Nat} (a : CArray τ n) (i : Nat) : Option τ :=
  a.val[i]?

/-- The data members of the class that hold plain values: `animation_timer`,
`dynamic_alignment`, `index_count`, `rotations[OBJECT_INSTANCES]` and
`rotation_speeds[OBJECT_INSTANCES]`. The Vulkan handles and buffers are left out. -/
structure Members (α : Type) where
  animation_timer : α
  dynamic_alignment : Nat
  index_count : Nat
  rotations : CArray (vec3 α) OBJECT_INSTANCES
  rotation_speeds : CArray (vec3 α) OBJECT_INSTANCES

/-! ## Alignment arithmetic -/

/-- The smallest multiple of `alignment` that is at least `n`, for `alignment > 0`. -/
def align_up (n alignment : Nat) : Nat :=
  (n + alignment - 1) / alignment * alignment

/-! ## Layout of `struct UboVS` (header lines 49-56) -/

/-- The members of `UboVS`, in declaration order. -/
inductive UboVSMember where
  | projection
  | view
  | ambientLightColor
  | lightPosition
  | lightColor
deriving DecidableEq, Repr

/-- The alignment requirements of the glm types `mat4`, `vec4` and `vec3`. The glm headers
are not part of the sample; their alignments are parameters of the layout. -/
structure GlmAlign where
  mat4 : Nat
  vec4 : Nat
  vec3 : Nat
deriving DecidableEq, Repr

/-- One non-static data member: which one, its size in bytes, its alignment in bytes. -/
structure MemberDecl where
  member : UboVSMember
  size : Nat
  alignment : Nat
deriving DecidableEq, Repr

/-- The declaration of `UboVS`: two `mat4` of 64 bytes, a `vec4` of 16 bytes, a `vec3` of
12 bytes and a `vec4` of 16 bytes declared `alignas(16)`, which raises its alignment to 16. -/
def UboVS_decl (g : GlmAlign) : List MemberDecl :=
  [ ⟨UboVSMember.projection, 64, g.mat4⟩,
    ⟨UboVSMember.view, 64, g.mat4⟩,
    ⟨UboVSMember.ambientLightColor, 16, g.vec4⟩,
    ⟨UboVSMember.lightPosition, 12, g.vec3⟩,
    ⟨UboVSMember.lightColor, 16, max 16 g.vec4⟩ ]

/-- The placement of members in declaration order: each member goes to the first offset at
or after the end of the previous one that satisfies its alignment. This is the rule the
C++ ABIs (Itanium, MSVC) apply to a struct without bases or virtual functions. -/
def layout_from (start : Nat) : List MemberDecl → List (UboVSMember × Nat)
  | [] => []
  | m :: rest =>
    let offset := align_up start m.alignment
    (m.member, offset) :: layout_from (offset + m.size) rest

/-- The offset just past the last member placed by `layout_from`. -/
def end_from (start : Nat) : List MemberDecl → Nat
  | [] => start
  | m :: rest => end_from (align_up start m.alignment + m.size) rest

/-- The alignment of a struct: the largest alignment among its members. -/
def struct_align (decl : List MemberDecl) : Nat :=
  decl.foldl (fun acc m => max acc m.alignment) 1

/-- The `sizeof` of a struct: the end of its last member, padded to the struct alignment. -/
def struct_size (decl : List MemberDecl) : Nat :=
  align_up (end_from 0 decl) (struct_align decl)

/-! ## The dynamic uniform buffer -/

/-- The `sizeof(glm::mat4)`: sixteen 4-byte floats. -/
def sizeof_mat4 : Nat := 64

/-- Modelled from the spec: the body of `prepare_uniform_buffers` (declared on header line
128), which sets the member `dynamic_alignment` (line 138), is not in the header. The spec
describes "a host-side buffer whose stride per object is rounded up to the device alignment
requirement": the stride is the size of one model matrix rounded up to a multiple of the
minimum uniform-buffer offset alignment the device reports. The spec gives no stride for a
reported alignment of 0, which states no requirement; the model keeps the matrix size
there. -/
def dynamic_alignment (min_ubo_alignment : Nat) : Nat :=
  if min_ubo_alignment = 0 then sizeof_mat4 else align_up sizeof_mat4 min_ubo_alignment

/-- Modelled from the spec: the allocation in `prepare_uniform_buffers` through
`aligned_alloc` (declared on line 110) is not in the header. The spec describes an
"alignment-padded array; one slot per object instance (fixed count)": `OBJECT_INSTANCES`
slots of one stride each. -/
def buffer_size (min_ubo_alignment : Nat) : Nat :=
  OBJECT_INSTANCES * dynamic_alignment min_ubo_alignment

/-- Modelled from the spec: the bodies of `build_command_buffers` and
`update_dynamic_uniform_buffer` (declared on lines 120 and 130) are not in the header. The
spec has each draw "bind the descriptor set with a dynamic offset equal to the per-object
slot's byte offset": object `i` uses the slot that starts `i` strides into the buffer.
The spec states offsets and sizes as plain byte counts, so they are natural numbers here. -/
def dynamic_offset (min_ubo_alignment i : Nat) : Nat :=
  i * dynamic_alignment min_ubo_alignment

/-- The byte ranges `[o1, o1 + len)` and `[o2, o2 + len)` have a byte in common. -/
def ranges_overlap (o1 o2 len : Nat) : Prop :=
  o1 < o2 + len ∧ o2 < o1 + len

instance (o1 o2 len : Nat) : Decidable (ranges_overlap o1 o2 len) :=
  inferInstanceAs (Decidable (o1 < o2 + len ∧ o2 < o1 + len))

/-! ## Rounding up to an alignment -/

theorem align_up_dvd (n a : Nat) : a ∣ align_up n a :=
  Dvd.intro_left _ rfl

theorem le_align_up (n a : Nat) (ha : 0 < a) : n ≤ align_up n a := by
  unfold align_up
  have hlt : n + a - 1 < (n + a - 1) / a * a + a := by
    have hmod := Nat.mod_lt (n + a - 1) ha
    have hsplit := Nat.div_add_mod (n + a - 1) a
    rw [Nat.mul_comm] at hsplit
    omega
  omega

theorem align_up_le_of_dvd (n a m : Nat) (ha : 0 < a) (hdvd : a ∣ m) (hle : n ≤ m) :
    align_up n a ≤ m := by
  obtain ⟨c, rfl⟩ := hdvd
  unfold align_up
  have hq : (n + a - 1) / a < c + 1 := by
    rw [Nat.div_lt_iff_lt_mul ha]
    have : (c + 1) * a = a * c + a := by ring
    omega
  calc (n + a - 1) / a * a ≤ c * a := Nat.mul_le_mul_right a (Nat.lt_succ_iff.mp hq)
    _ = a * c := Nat.mul_comm c a

theorem sizeof_mat4_le_dynamic_alignment (a : Nat) : sizeof_mat4 ≤ dynamic_alignment a := by
  unfold dynamic_alignment
  split
  · exact Nat.le_refl _
  · exact le_align_up _ _ (by omega)

theorem dvd_dynamic_alignment (a : Nat) (ha : 0 < a) : a ∣ dynamic_alignment a := by
  unfold dynamic_alignment
  rw [if_neg (by omega)]
  exact align_up_dvd _ _

theorem dvd_sixteen_cases (n : Nat) (h : n ∣ 16) :
    n = 1 ∨ n = 2 ∨ n = 4 ∨ n = 8 ∨ n = 16 := by
  have hle : n ≤ 16 := Nat.le_of_dvd (by decide) h
  interval_cases n <;> omega

/-! ## The dynamic uniform buffer: offsets and stride -/

/-- C1: for every object index `i` below `OBJECT_INSTANCES` and every reported minimum
alignment `a > 0`, the byte offset `i * dynamic_alignment` of object `i` is a multiple
of `a`. -/
theorem dynamic_offset_aligned (a i : Nat) (_hi : i < OBJECT_INSTANCES) (ha : 0 < a) :
    a ∣ dynamic_offset a i :=
  Dvd.dvd.mul_left (dvd_dynamic_alignment a ha) i

theorem dynamic_offset_aligned_witness :
    14 < OBJECT_INSTANCES ∧ 0 < 256 ∧ 256 ∣ dynamic_offset 256 14 :=
  ⟨by decide, by decide, dynamic_offset_aligned 256 14 (by decide) (by decide)⟩

/-- C2: for every object index `i` below `OBJECT_INSTANCES`, the slot of object `i` lies
inside the buffer: its offset plus the 64 bytes of one model matrix is at most the buffer
size `OBJECT_INSTANCES * dynamic_alignment`. -/
theorem slot_within_buffer (a i : Nat) (hi : i < OBJECT_INSTANCES) :
    dynamic_offset a i + sizeof_mat4 ≤ buffer_size a := by
  have hstride := sizeof_mat4_le_dynamic_alignment a
  have hsucc : (i + 1) * dynamic_alignment a ≤ OBJECT_INSTANCES * dynamic_alignment a :=
    Nat.mul_le_mul_right _ hi
  unfold dynamic_offset buffer_size
  rw [Nat.add_mul, Nat.one_mul] at hsucc
  omega

theorem slot_within_buffer_witness :
    14 < OBJECT_INSTANCES ∧ dynamic_offset 256 14 + sizeof_mat4 ≤ buffer_size 256 :=
  ⟨by decide, slot_within_buffer 256 14 (by decide)⟩

/-- C3: for every power-of-two minimum alignment `a = 2 ^ k`, the stride
`dynamic_alignment` is the smallest multiple of `a` that is at least the 64 bytes of one
model matrix: it is a multiple of `a`, it is at least 64, and no multiple of `a` that is at
least 64 is smaller. -/
theorem dynamic_alignment_least_multiple (k : Nat) :
    2 ^ k ∣ dynamic_alignment (2 ^ k) ∧ sizeof_mat4 ≤ dynamic_alignment (2 ^ k) ∧
      ∀ m : Nat, 2 ^ k ∣ m → sizeof_mat4 ≤ m → dynamic_alignment (2 ^ k) ≤ m := by
  have hpos : 0 < 2 ^ k := Nat.pow_pos (by decide)
  refine ⟨dvd_dynamic_alignment _ hpos, sizeof_mat4_le_dynamic_alignment _, ?_⟩
  intro m hdvd hle
  unfold dynamic_alignment
  rw [if_neg (by omega)]
  exact align_up_le_of_dvd _ _ _ hpos hdvd hle

theorem dynamic_alignment_least_multiple_witness :
    2 ^ 8 ∣ 512 ∧ sizeof_mat4 ≤ 512 ∧ dynamic_alignment (2 ^ 8) ≤ 512 :=
  ⟨by decide, by decide,
    (dynamic_alignment_least_multiple 8).2.2 512 (by decide) (by decide)⟩

/-- C4: each object is drawn with the dynamic offset of its own slot, and for two distinct
object indices `i` and `j` below `OBJECT_INSTANCES` the 64-byte ranges that start at the
dynamic offsets of `i` and of `j` do not overlap. -/
theorem dynamic_ranges_disjoint (a i j : Nat) (_hi : i < OBJECT_INSTANCES)
    (_hj : j < OBJECT_INSTANCES) (hij : i ≠ j) :
    ¬ ranges_overlap (dynamic_offset a i) (dynamic_offset a j) sizeof_mat4 := by
  have hstride := sizeof_mat4_le_dynamic_alignment a
  unfold ranges_overlap dynamic_offset
  rcases Nat.lt_or_gt_of_ne hij with h | h
  · have hstep : (i + 1) * dynamic_alignment a ≤ j * dynamic_alignment a :=
      Nat.mul_le_mul_right _ h
    rw [Nat.add_mul, Nat.one_mul] at hstep
    omega
  · have hstep : (j + 1) * dynamic_alignment a ≤ i * dynamic_alignment a :=
      Nat.mul_le_mul_right _ h
    rw [Nat.add_mul, Nat.one_mul] at hstep
    omega

theorem dynamic_ranges_disjoint_witness :
    3 < OBJECT_INSTANCES ∧ 4 < OBJECT_INSTANCES ∧ 3 ≠ 4 ∧
      ¬ ranges_overlap (dynamic_offset 16 3) (dynamic_offset 16 4) sizeof_mat4 :=
  ⟨by decide, by decide, by decide,
    dynamic_ranges_disjoint 16 3 4 (by decide) (by decide) (by decide)⟩

/-! ## Vertex: constructor, setters and colour assignment -/

/-- C5: for every position, color and normal, the three-argument constructor yields a
vertex whose `pos` is `(position.x, position.y, position.z)`, whose `color` is
`(color.r, color.g, color.b)` and whose `normal` is `(normal.x, normal.y, normal.z)`,
whatever the storage held before. -/
theorem Vertex_ctor_fields {α : Type} (raw : Vertex α) (position color normal : vec3 α) :
    (Vertex.ctor raw position color normal).pos = ⟨position.x, position.y, position.z⟩ ∧
      (Vertex.ctor raw position color normal).color = ⟨color.r, color.g, color.b⟩ ∧
      (Vertex.ctor raw position color normal).normal = ⟨normal.x, normal.y, normal.z⟩ :=
  ⟨rfl, rfl, rfl⟩

/-- C6: assigning a vector `c` to a vertex `v` is an assignment for color only: afterwards
`color` is `(c.r, c.g, c.b)`, `pos` and `normal` are those `v` had before, and the result
is that of `set_color c`. -/
theorem Vertex_assign_color_only {α : Type} (v : Vertex α) (c : vec3 α) :
    (v.assign c).color = ⟨c.r, c.g, c.b⟩ ∧ (v.assign c).pos = v.pos ∧
      (v.assign c).normal = v.normal ∧ v.assign c = v.set_color c :=
  ⟨rfl, rfl, rfl, rfl⟩

/-- C8: each setter writes only its own field (`set_position` leaves `color` and `normal`,
`set_color` leaves `pos` and `normal`, `set_normal` leaves `pos` and `color`), setters of
different fields commute, and the constructor gives the same vertex in each of the six
orders in which the three setters can be called. -/
theorem Vertex_setters_frame {α : Type} (v : Vertex α) (x y z : vec3 α) :
    ((v.set_position x).color = v.color ∧ (v.set_position x).normal = v.normal ∧
      (v.set_color x).pos = v.pos ∧ (v.set_color x).normal = v.normal ∧
      (v.set_normal x).pos = v.pos ∧ (v.set_normal x).color = v.color) ∧
    ((v.set_position x).set_color y = (v.set_color y).set_position x ∧
      (v.set_position x).set_normal y = (v.set_normal y).set_position x ∧
      (v.set_color x).set_normal y = (v.set_normal y).set_color x) ∧
    (Vertex.ctor v x y z = ((v.set_position x).set_normal z).set_color y ∧
      Vertex.ctor v x y z = ((v.set_color y).set_position x).set_normal z ∧
      Vertex.ctor v x y z = ((v.set_color y).set_normal z).set_position x ∧
      Vertex.ctor v x y z = ((v.set_normal z).set_position x).set_color y ∧
      Vertex.ctor v x y z = ((v.set_normal z).set_color y).set_position x) :=
  ⟨⟨rfl, rfl, rfl, rfl, rfl, rfl⟩, ⟨rfl, rfl, rfl⟩, ⟨rfl, rfl, rfl, rfl, rfl⟩⟩

/-! ## Per-object arrays -/

/-- C7: the number of object instances is 15, the arrays `rotations` and `rotation_speeds`
each have exactly `OBJECT_INSTANCES` entries, and every object index below
`OBJECT_INSTANCES` reads an entry of both arrays. -/
theorem rotations_one_slot_per_instance {α : Type} (s : Members α) :
    OBJECT_INSTANCES = 15 ∧ s.rotations.val.size = OBJECT_INSTANCES ∧
      s.rotation_speeds.val.size = OBJECT_INSTANCES ∧
      ∀ i : Nat, i < OBJECT_INSTANCES →
        (s.rotations.get? i).isSome = true ∧ (s.rotation_speeds.get? i).isSome = true := by
  refine ⟨rfl, s.rotations.property, s.rotation_speeds.property, ?_⟩
  intro i hi
  have h1 : i < s.rotations.val.size := s.rotations.property.symm ▸ hi
  have h2 : i < s.rotation_speeds.val.size := s.rotation_speeds.property.symm ▸ hi
  unfold CArray.get?
  rw [getElem?_pos s.rotations.val i h1, getElem?_pos s.rotation_speeds.val i h2]
  exact ⟨rfl, rfl⟩

theorem rotations_one_slot_per_instance_witness :
    14 < OBJECT_INSTANCES ∧
      ((⟨0, 0, 0, ⟨mkArray 15 ⟨0, 0, 0⟩, rfl⟩, ⟨mkArray 15 ⟨1, 1, 1⟩, rfl⟩⟩ :
          Members Int).rotations.get? 14).isSome = true ∧
      ((⟨0, 0, 0, ⟨mkArray 15 ⟨0, 0, 0⟩, rfl⟩, ⟨mkArray 15 ⟨1, 1, 1⟩, rfl⟩⟩ :
          Members Int).rotation_speeds.get? 14).isSome = true :=
  ⟨by decide,
    (rotations_one_slot_per_instance
      (⟨0, 0, 0, ⟨mkArray 15 ⟨0, 0, 0⟩, rfl⟩, ⟨mkArray 15 ⟨1, 1, 1⟩, rfl⟩⟩ :
        Members Int)).2.2.2 14 (by decide)⟩

/-! ## Layout of the shared uniform block -/

/-- C9: in `UboVS`, with `mat4` of 64, `vec4` of 16 and `vec3` of 12 bytes laid out in
declaration order, and glm alignments that divide 16, the members start at `projection` 0,
`view` 64, `ambientLightColor` 128, `lightPosition` 144 and `lightColor` 160, every one a
multiple of 16; `lightPosition` ends at 156, where a `vec4` alignment of at most 4 would
have left `lightColor`, and `alignas(16)` moves it to 160; the struct size is 176. -/
theorem UboVS_layout (g : GlmAlign) (hmat4 : g.mat4 ∣ 16) (hvec4 : g.vec4 ∣ 16)
    (hvec3 : g.vec3 ∣ 16) :
    layout_from 0 (UboVS_decl g) =
        [(UboVSMember.projection, 0), (UboVSMember.view, 64),
          (UboVSMember.ambientLightColor, 128), (UboVSMember.lightPosition, 144),
          (UboVSMember.lightColor, 160)] ∧
      (∀ p ∈ layout_from 0 (UboVS_decl g), 16 ∣ p.2) ∧
      end_from 0 ((UboVS_decl g).take 4) = 156 ∧
      (g.vec4 ∣ 4 → align_up (end_from 0 ((UboVS_decl g).take 4)) g.vec4 = 156) ∧
      align_up (end_from 0 ((UboVS_decl g).take 4)) 16 = 160 ∧
      struct_size (UboVS_decl g) = 176 := by
  obtain ⟨m, v4, v3⟩ := g
  simp only at hmat4 hvec4 hvec3
  rcases dvd_sixteen_cases m hmat4 with rfl | rfl | rfl | rfl | rfl <;>
    rcases dvd_sixteen_cases v4 hvec4 with rfl | rfl | rfl | rfl | rfl <;>
      rcases dvd_sixteen_cases v3 hvec3 with rfl | rfl | rfl | rfl | rfl <;>
        decide

theorem UboVS_layout_witness :
    (4 ∣ 16) ∧ (4 ∣ 4) ∧
      layout_from 0 (UboVS_decl ⟨4, 4, 4⟩) =
        [(UboVSMember.projection, 0), (UboVSMember.view, 64),
          (UboVSMember.ambientLightColor, 128), (UboVSMember.lightPosition, 144),
          (UboVSMember.lightColor, 160)] ∧
      align_up (end_from 0 ((UboVS_decl ⟨4, 4, 4⟩).take 4)) 4 = 156 ∧
      struct_size (UboVS_decl ⟨4, 4, 4⟩) = 176 :=
  ⟨by decide, by decide,
    (UboVS_layout ⟨4, 4, 4⟩ (by decide) (by decide) (by decide)).1,
    (UboVS_layout ⟨4, 4, 4⟩ (by decide) (by decide) (by decide)).2.2.2.1 (by decide),
    (UboVS_layout ⟨4, 4, 4⟩ (by decide) (by decide) (by decide)).2.2.2.2.2⟩

end HPPDynamicUniformBuffers
